import Mathlib

/-!
Shallow embedding of the MiTiendita inventory/point-of-sale backend
(routers/categoria.py, routers/productos.py, routers/venta.py and the
SQLModel entity definitions in modelos/).

Conventions of the embedding:
* Primary keys are `Nat`; each table is an association list `List (Nat × _)`
  together with an autoincrement counter in `DB`.
* Python `int` values (stock, quantities, prices as passed through the Form
  layer, sale totals) are `Int`.  Timestamps are abstract `Nat` instants; an
  operation that reads the clock takes an explicit `now` argument, an
  operation that never reads the clock takes none.
* `Optional` columns are `Option _`; an HTTP error response is a constructor
  of `ApiError`.  Operations that can fail return `Except ApiError (DB × _)`
  (an error aborts the request before commit, so the caller's state is
  unchanged).  `agregar_item_venta` returns `Option (DB × Except ApiError
  VentaItem)`: the `none` result models the uncaught Python `TypeError`
  raised when `producto.stock < cantidad` compares `None` with an `int`, or
  when `venta.total += precio_unitario * cantidad` multiplies `None` by an
  `int` — both abort the request before `session.commit()`, so no state
  change is observable.
-/

/-- Entity `Categoria` (modelos/categoria.py).  `eliminacion` defaults to
`True` on the model. -/
structure Categoria where
  nombre : String
  descripcion : Option String
  fecha_creacion : Nat
  fecha_actualizacion : Nat
  activo : Bool
  eliminacion : Bool := true
deriving Repr, DecidableEq

/-- Entity `Producto` (modelos/productos.py).  `precio` and `stock` are
`Optional` columns.  The class declares no `eliminacion` field; the attribute
is only ever assigned (to `False`) by `eliminar_producto`, so it is embedded
as `Option Bool` starting out `none`. -/
structure Producto where
  nombre : String
  descripcion : Option String
  fecha_creacion : Nat
  fecha_actualizacion : Nat
  activo : Bool
  precio : Option Int
  stock : Option Int
  categoria_id : Option Nat
  eliminacion : Option Bool := none
deriving Repr, DecidableEq

/-- Entity `Venta` (modelos/venta.py): `total` defaults to `int()` = 0. -/
structure Venta where
  fecha_venta : Nat
  total : Int
deriving Repr, DecidableEq

/-- Entity `VentaItem` (modelos/venta.py). -/
structure VentaItem where
  venta_id : Option Nat
  producto_id : Nat
  cantidad : Int
  precio_unitario : Int
deriving Repr, DecidableEq

/-- The persistent store: one association list per table plus the
autoincrement counters handed out for new primary keys. -/
structure DB where
  categorias : List (Nat × Categoria)
  productos : List (Nat × Producto)
  ventas : List (Nat × Venta)
  items : List (Nat × VentaItem)
  nextCategoriaId : Nat
  nextProductoId : Nat
  nextVentaId : Nat
  nextItemId : Nat
deriving Repr, DecidableEq

/-- `session.get(Model, id)`: first row with the given primary key. -/
def getById (l : List (Nat × α)) (k : Nat) : Option α :=
  match l with
  | [] => none
  | (k', v) :: rest => if k' = k then some v else getById rest k

/-- Write back a mutated row fetched by `session.get`: replace the first row
with the given primary key. -/
def setById (l : List (Nat × α)) (k : Nat) (v : α) : List (Nat × α) :=
  match l with
  | [] => []
  | (k', v') :: rest =>
    if k' = k then (k', v) :: rest else (k', v') :: setById rest k v

/-- The HTTP error responses raised by the routers, one constructor per
distinct `HTTPException` condition. -/
inductive ApiError where
  /-- 404 "No se encontraron productos activos con categoría activa". -/
  | sinProductosActivos
  /-- 404 "Venta no encontrada" (the spec's SaleNotFound). -/
  | ventaNoEncontrada
  /-- 404 "Producto no encontrado o inactivo" (the spec's ProductNotFound). -/
  | productoNoEncontrado
  /-- 400 "Stock insuficiente para el producto" (InsufficientStock). -/
  | stockInsuficiente
  /-- 404 "Categoría no encontrada" (NotFound for a category id). -/
  | categoriaNoEncontrada
  /-- 400 "La categoría está inactiva" (CategoryInactive). -/
  | categoriaInactiva
  /-- 400 "El stock no puede ser negativo" (InvalidStock). -/
  | stockNegativo
  /-- 400 "... ya existe" (DuplicateName). -/
  | nombreDuplicado
  /-- 404 raised by the list endpoints when the result set is empty. -/
  | noEncontrado
  /-- 400 "El ... mínimo no puede ser mayor que el ... máximo". -/
  | rangoInvalido
deriving Repr, DecidableEq

instance exceptDecEq {ε α : Type} [DecidableEq ε] [DecidableEq α] :
    DecidableEq (Except ε α) := fun x y =>
  match x, y with
  | .ok a, .ok b => decidable_of_iff (a = b) (by simp)
  | .error a, .error b => decidable_of_iff (a = b) (by simp)
  | .ok _, .error _ => isFalse (by simp)
  | .error _, .ok _ => isFalse (by simp)

/-- The join used both by `leer_productos` and by the pre-check at the top of
`agregar_item_venta`: `session.query(Producto).join(Categoria).filter(
Producto.activo == True, Categoria.activo == True)`.  The inner join is on
the `categoria_id` foreign key, so a product with no category is excluded. -/
def activosJoin (db : DB) : List (Nat × Producto) :=
  db.productos.filter (fun pr =>
    pr.2.activo &&
      (match pr.2.categoria_id with
       | some cid =>
         (match getById db.categorias cid with
          | some c => c.activo
          | none => false)
       | none => false))

/-- `crear_venta` (routers/venta.py): persists `Venta()` — empty sale,
`total = 0`, `fecha_venta = now` — and returns it. -/
def crear_venta (db : DB) (now : Nat) : DB × Venta :=
  let nueva_venta : Venta := { fecha_venta := now, total := 0 }
  ({ db with
      ventas := db.ventas ++ [(db.nextVentaId, nueva_venta)],
      nextVentaId := db.nextVentaId + 1 },
   nueva_venta)

/-- `agregar_item_venta` (routers/venta.py), step by step in source order:
the active-products/active-categories pre-check, sale lookup, product
lookup + active check, stock check, price snapshot, then the mutation of
product stock and sale total and the insertion of the new `VentaItem`, all
committed together.  `none` models the uncaught `TypeError` on an unset
(`None`) stock or price; it occurs before the commit, so no state change is
observable in that case. -/
def agregar_item_venta (db : DB) (venta_id producto_id : Nat) (cantidad : Int) :
    Option (DB × Except ApiError VentaItem) :=
  if (activosJoin db).isEmpty then
    some (db, .error .sinProductosActivos)
  else
    match getById db.ventas venta_id with
    | none => some (db, .error .ventaNoEncontrada)
    | some venta =>
      match getById db.productos producto_id with
      | none => some (db, .error .productoNoEncontrado)
      | some producto =>
        if producto.activo = false then
          some (db, .error .productoNoEncontrado)
        else
          match producto.stock with
          | none => none
          | some s =>
            if s < cantidad then
              some (db, .error .stockInsuficiente)
            else
              match producto.precio with
              | none => none
              | some precio_unitario =>
                let nuevo_item : VentaItem :=
                  { venta_id := some venta_id, producto_id := producto_id,
                    cantidad := cantidad, precio_unitario := precio_unitario }
                some
                  ({ db with
                      productos := setById db.productos producto_id
                        { producto with stock := some (s - cantidad) },
                      ventas := setById db.ventas venta_id
                        { venta with
                            total := venta.total + precio_unitario * cantidad },
                      items := db.items ++ [(db.nextItemId, nuevo_item)],
                      nextItemId := db.nextItemId + 1 },
                   .ok nuevo_item)

/-- The guard `stock is not None and stock < 0` shared by `crear_producto`
and `actualizar_producto`. -/
def negativeStock (stock : Option Int) : Bool :=
  match stock with
  | some s => decide (s < 0)
  | none => false

/-- `crear_producto` (routers/productos.py): negative-stock check, category
lookup, category-active check, duplicate-name check, then insertion — in
exactly that source order. -/
def crear_producto (db : DB) (nombre : String) (descripcion : Option String)
    (activo : Bool) (precio : Option Int) (stock : Option Int)
    (categoria_id : Nat) (now : Nat) : Except ApiError (DB × Producto) :=
  if negativeStock stock then .error .stockNegativo
  else
    match getById db.categorias categoria_id with
    | none => .error .categoriaNoEncontrada
    | some categoria =>
      if categoria.activo = false then .error .categoriaInactiva
      else
        let nuevo_producto : Producto :=
          { nombre := nombre, descripcion := descripcion,
            fecha_creacion := now, fecha_actualizacion := now,
            activo := activo, precio := precio, stock := stock,
            categoria_id := some categoria_id, eliminacion := none }
        if (db.productos.filter
              (fun pr => pr.2.nombre == nuevo_producto.nombre)).isEmpty = false
        then .error .nombreDuplicado
        else
          .ok ({ db with
                  productos := db.productos ++ [(db.nextProductoId, nuevo_producto)],
                  nextProductoId := db.nextProductoId + 1 },
               nuevo_producto)

/-- `actualizar_producto` (routers/productos.py): negative-stock check,
lookup, overwrite of exactly the provided (non-`None`) fields, and a refresh
of `fecha_actualizacion` to the call time. -/
def actualizar_producto (db : DB) (producto_id : Nat) (nombre : Option String)
    (descripcion : Option String) (activo : Option Bool) (precio : Option Int)
    (stock : Option Int) (now : Nat) : Except ApiError (DB × Producto) :=
  if negativeStock stock then .error .stockNegativo
  else
    match getById db.productos producto_id with
    | none => .error .productoNoEncontrado
    | some producto =>
      let producto' : Producto :=
        { producto with
            nombre := nombre.getD producto.nombre,
            descripcion :=
              match descripcion with
              | some d => some d
              | none => producto.descripcion,
            activo := activo.getD producto.activo,
            precio :=
              match precio with
              | some v => some v
              | none => producto.precio,
            stock :=
              match stock with
              | some v => some v
              | none => producto.stock,
            fecha_actualizacion := now }
      .ok ({ db with productos := setById db.productos producto_id producto' },
           producto')

/-- `eliminar_producto` (routers/productos.py): soft delete.  Sets the
`eliminacion` attribute to `False`, `activo` to `False`, `precio` and `stock`
to 0, touching nothing else — in particular `fecha_actualizacion` is left as
it was and the row is written back, never removed. -/
def eliminar_producto (db : DB) (producto_id : Nat) :
    Except ApiError (DB × Producto) :=
  match getById db.productos producto_id with
  | none => .error .productoNoEncontrado
  | some producto =>
    let producto' : Producto :=
      { producto with
          eliminacion := some false, activo := false,
          precio := some 0, stock := some 0 }
    .ok ({ db with productos := setById db.productos producto_id producto' },
         producto')

/-- `actualizar_categoria` (routers/categoria.py): lookup, then overwrite of
exactly the provided (non-`None`) fields among nombre/descripcion/activo.
The source never touches `fecha_actualizacion` here (and reads no clock), so
the embedding takes no `now` argument. -/
def actualizar_categoria (db : DB) (categoria_id : Nat) (nombre : Option String)
    (descripcion : Option String) (activo : Option Bool) :
    Except ApiError (DB × Categoria) :=
  match getById db.categorias categoria_id with
  | none => .error .categoriaNoEncontrada
  | some categoria =>
    let categoria' : Categoria :=
      { categoria with
          nombre := nombre.getD categoria.nombre,
          descripcion :=
            match descripcion with
            | some d => some d
            | none => categoria.descripcion,
          activo := activo.getD categoria.activo }
    .ok ({ db with categorias := setById db.categorias categoria_id categoria' },
         categoria')

/-- The shared shape of every list endpoint: compute the result set, raise
404 when it is empty, return it otherwise. -/
def listOr404 (l : List α) : Except ApiError (List α) :=
  if l.isEmpty then .error .noEncontrado else .ok l

/-- `leer_productos`: active products with active categories. -/
def leer_productos (db : DB) : Except ApiError (List (Nat × Producto)) :=
  listOr404 (activosJoin db)

/-- `leer_categorias`: active categories. -/
def leer_categorias (db : DB) : Except ApiError (List (Nat × Categoria)) :=
  listOr404 (db.categorias.filter (fun c => c.2.activo))

/-- `leer_categorias_activo`: categories filtered by the given flag. -/
def leer_categorias_activo (db : DB) (activo : Bool) :
    Except ApiError (List (Nat × Categoria)) :=
  listOr404 (db.categorias.filter (fun c => c.2.activo == activo))

/-- `leer_productos_por_categoria`: products of one category. -/
def leer_productos_por_categoria (db : DB) (categoria_id : Nat) :
    Except ApiError (List (Nat × Producto)) :=
  listOr404 (db.productos.filter (fun p => p.2.categoria_id == some categoria_id))

/-- `leer_productos_por_estado`: products filtered by the given flag. -/
def leer_productos_por_estado (db : DB) (activo : Bool) :
    Except ApiError (List (Nat × Producto)) :=
  listOr404 (db.productos.filter (fun p => p.2.activo == activo))

/-- `leer_productos_por_categoria_y_estado`. -/
def leer_productos_por_categoria_y_estado (db : DB) (categoria_id : Nat)
    (activo : Bool) : Except ApiError (List (Nat × Producto)) :=
  listOr404 (db.productos.filter
    (fun p => p.2.categoria_id == some categoria_id && p.2.activo == activo))

/-- `leer_productos_por_precio`: range check first (400), then `BETWEEN` —
a `NULL` price never matches. -/
def leer_productos_por_precio (db : DB) (precio_min precio_max : Int) :
    Except ApiError (List (Nat × Producto)) :=
  if precio_max < precio_min then .error .rangoInvalido
  else
    listOr404 (db.productos.filter (fun p =>
      match p.2.precio with
      | some v => decide (precio_min ≤ v) && decide (v ≤ precio_max)
      | none => false))

/-- `leer_productos_por_stock`: same shape over the stock column. -/
def leer_productos_por_stock (db : DB) (stock_min stock_max : Int) :
    Except ApiError (List (Nat × Producto)) :=
  if stock_max < stock_min then .error .rangoInvalido
  else
    listOr404 (db.productos.filter (fun p =>
      match p.2.stock with
      | some v => decide (stock_min ≤ v) && decide (v ≤ stock_max)
      | none => false))

/-- `leer_ventas` (GET /ventas/): all sales. -/
def leer_ventas (db : DB) : Except ApiError (List (Nat × Venta)) :=
  listOr404 db.ventas

/-- `leer_ventas` (GET /ventas/{venta_id}/): the sales matching one id. -/
def leer_ventas_por_id (db : DB) (venta_id : Nat) :
    Except ApiError (List (Nat × Venta)) :=
  listOr404 (db.ventas.filter (fun v => v.1 == venta_id))

/-- The spec's reading of the soft-deleted ("retired") state: the source
marks it by assigning `False` to the otherwise-unset `eliminacion` attribute
in `eliminar_producto`, so a product is retired exactly when that attribute
has been set to `False`. -/
def retirado (p : Producto) : Bool :=
  p.eliminacion == some false

/-- The sum of `unit_price * quantity` over the items of the sale with key
`vid`. -/
def itemsTotal (vid : Nat) (items : List (Nat × VentaItem)) : Int :=
  (items.map (fun it =>
    if it.2.venta_id = some vid then it.2.precio_unitario * it.2.cantidad
    else 0)).sum

/-- The states reachable from a store with no sales and no items by any
sequence of `crear_venta` calls and successful `agregar_item_venta` calls. -/
inductive Reach : DB → Prop where
  | init (db : DB) : db.ventas = [] → db.items = [] → Reach db
  | venta (db : DB) (now : Nat) : Reach db → Reach (crear_venta db now).1
  | item (db db' : DB) (vid pid : Nat) (q : Int) (it : VentaItem) :
      Reach db → agregar_item_venta db vid pid q = some (db', .ok it) →
      Reach db'

/-- Induction invariant for the sale-total property: every stored sale has a
key below the autoincrement counter and a total matching its items, and no
item references an absent sale key. -/
def VentasInv (db : DB) : Prop :=
  (∀ k v, getById db.ventas k = some v →
    k < db.nextVentaId ∧ v.total = itemsTotal k db.items) ∧
  (∀ k, getById db.ventas k = none →
    ∀ e ∈ db.items, e.2.venta_id ≠ some k)

/-- Run a list of `(venta_id, producto_id, cantidad)` calls through
`agregar_item_venta`, requiring every call to succeed. -/
def runVentaCalls (db : DB) (calls : List (Nat × Nat × Int)) : Option DB :=
  match calls with
  | [] => some db
  | (vid, pid, q) :: rest =>
    match agregar_item_venta db vid pid q with
    | some (db', .ok _) => runVentaCalls db' rest
    | _ => none

/-- The total quantity a call list appends against the product with key
`pid`. -/
def cantidadTotal (pid : Nat) (calls : List (Nat × Nat × Int)) : Int :=
  (calls.map (fun c => if c.2.1 = pid then c.2.2 else 0)).sum

/-- Transcription of the claim's check order for CreateProduct: the first
failing check among InvalidStock, NotFound, CategoryInactive, DuplicateName,
in that fixed order (`none` when every check passes).  Stated from the
spec's words, to be compared against `crear_producto`. -/
def crearProductoFirstFailure (db : DB) (nombre : String) (stock : Option Int)
    (categoria_id : Nat) : Option ApiError :=
  if negativeStock stock then some .stockNegativo
  else
    match getById db.categorias categoria_id with
    | none => some .categoriaNoEncontrada
    | some categoria =>
      if categoria.activo = false then some .categoriaInactiva
      else if (db.productos.filter
            (fun pr => pr.2.nombre == nombre)).isEmpty = false then
        some .nombreDuplicado
      else none

/-! ### Concrete stores used by the witnesses and counterexamples -/

/-- An active category. -/
def cat1 : Categoria :=
  { nombre := "Bebidas", descripcion := none, fecha_creacion := 0,
    fecha_actualizacion := 0, activo := true, eliminacion := true }

/-- An active product of `cat1` with price 5 and stock 10. -/
def prod1 : Producto :=
  { nombre := "Agua", descripcion := none, fecha_creacion := 0,
    fecha_actualizacion := 0, activo := true, precio := some 5,
    stock := some 10, categoria_id := some 1, eliminacion := none }

/-- An empty sale. -/
def venta1 : Venta := { fecha_venta := 0, total := 0 }

/-- A store with one category, one product and one empty sale. -/
def dbW : DB :=
  { categorias := [(1, cat1)], productos := [(1, prod1)],
    ventas := [(1, venta1)], items := [],
    nextCategoriaId := 2, nextProductoId := 2, nextVentaId := 2,
    nextItemId := 1 }

/-- The empty store. -/
def dbEmpty : DB :=
  { categorias := [], productos := [], ventas := [], items := [],
    nextCategoriaId := 1, nextProductoId := 1, nextVentaId := 1,
    nextItemId := 1 }

/-- `dbW` after a successful append of 3 units of product 1 to sale 1. -/
def dbW1 : DB :=
  { categorias := [(1, cat1)],
    productos := [(1, { prod1 with stock := some 7 })],
    ventas := [(1, { venta1 with total := 15 })],
    items := [(1, { venta_id := some 1, producto_id := 1, cantidad := 3,
                    precio_unitario := 5 })],
    nextCategoriaId := 2, nextProductoId := 2, nextVentaId := 2,
    nextItemId := 2 }

/-- The item created by appending 3 units of product 1 to sale 1 on `dbW`. -/
def itemW : VentaItem :=
  { venta_id := some 1, producto_id := 1, cantidad := 3, precio_unitario := 5 }

/-- Product 1 of `dbW1` after an update setting its price to 99 at time 7. -/
def prodUpd : Producto :=
  { prod1 with stock := some 7, precio := some 99, fecha_actualizacion := 7 }

/-- `dbW1` after that price update. -/
def dbUpd : DB := { dbW1 with productos := [(1, prodUpd)] }

/-- Like `dbW` but the product's stock column was never set. -/
def dbSinStock : DB :=
  { dbW with productos := [(1, { prod1 with stock := none })] }

/-- Like `dbW` but the product's price column was never set. -/
def dbSinPrecio : DB :=
  { dbW with productos := [(1, { prod1 with precio := none })] }

/-- A store with the `dbW` catalog but no sales and no items. -/
def db0 : DB :=
  { categorias := [(1, cat1)], productos := [(1, prod1)], ventas := [],
    items := [], nextCategoriaId := 2, nextProductoId := 2, nextVentaId := 1,
    nextItemId := 1 }

/-! ### Association-list lemmas -/

theorem getById_setById_self {l : List (Nat × α)} {k : Nat} {w : α} (v : α)
    (h : getById l k = some w) : getById (setById l k v) k = some v := by
  induction l with
  | nil => simp [getById] at h
  | cons e rest ih =>
    obtain ⟨k', v'⟩ := e
    by_cases hk : k' = k
    · simp [getById, setById, hk]
    · simp [getById, setById, hk] at h ⊢
      exact ih h

theorem getById_setById_ne {l : List (Nat × α)} {k k' : Nat} {v : α}
    (h : k' ≠ k) : getById (setById l k v) k' = getById l k' := by
  induction l with
  | nil => simp [getById, setById]
  | cons e rest ih =>
    obtain ⟨k₀, v₀⟩ := e
    by_cases hk : k₀ = k
    · subst hk
      simp [getById, setById, Ne.symm h]
    · simp only [setById, if_neg hk, getById]
      rw [ih]

theorem getById_append {l₁ l₂ : List (Nat × α)} {k : Nat} :
    getById (l₁ ++ l₂) k =
      match getById l₁ k with
      | some v => some v
      | none => getById l₂ k := by
  induction l₁ with
  | nil => simp [getById]
  | cons e rest ih =>
    obtain ⟨k', v'⟩ := e
    by_cases hk : k' = k
    · simp [getById, hk]
    · simp [getById, hk, ih]

/-- C1: calling AppendItem with a quantity strictly greater than the
product's current stock fails with `InsufficientStock` (the 400
"Stock insuficiente" response) and returns the caller's state unchanged —
the stock, price, sale total and item set are exactly as before, with no
partial mutation.  (The hypotheses say the call reaches the stock check:
the active-catalog pre-check passes and the sale and the active product
resolve.) -/
theorem agregar_item_oversell_fails (db : DB) (vid pid : Nat) (q : Int)
    (venta : Venta) (p : Producto) (s : Int)
    (hjoin : (activosJoin db).isEmpty = false)
    (hv : getById db.ventas vid = some venta)
    (hp : getById db.productos pid = some p)
    (hact : p.activo = true)
    (hs : p.stock = some s)
    (hlt : s < q) :
    agregar_item_venta db vid pid q = some (db, .error .stockInsuficiente) := by
  simp [agregar_item_venta, hjoin, hv, hp, hact, hs, hlt]

/-- Witness for C1: on the concrete store `dbW` (stock 10), asking for 20
units fails with `InsufficientStock` and hands back `dbW` itself. -/
theorem agregar_item_oversell_fails_witness :
    agregar_item_venta dbW 1 1 20 = some (dbW, .error .stockInsuficiente) :=
  agregar_item_oversell_fails dbW 1 1 20 venta1 prod1 10 (by decide)
    (by decide) (by decide) (by decide) (by decide) (by decide)

/-- Counterexample to C4: on the empty store the sale id 1 does not resolve,
yet AppendItem does not fail with the sale-not-found error — the
active-catalog pre-check at the top of `agregar_item_venta` fires first, so
the failure does depend on the state of the product catalog. -/
theorem agregar_item_precheck_cex :
    getById dbEmpty.ventas 1 = none ∧
    agregar_item_venta dbEmpty 1 1 1 =
      some (dbEmpty, .error .sinProductosActivos) ∧
    ApiError.sinProductosActivos ≠ ApiError.ventaNoEncontrada := by
  refine ⟨by decide, by decide, by decide⟩

/-- C4 as amended: when the catalog holds no active product with an active
category, AppendItem fails with the catalog pre-check error before resolving
anything; otherwise the spec's order holds — the sale is resolved first
(`SaleNotFound` when absent), and only then the product (`ProductNotFound`
when absent or inactive). -/
theorem agregar_item_resolution_order (db : DB) (vid pid : Nat) (q : Int) :
    ((activosJoin db).isEmpty = true →
      agregar_item_venta db vid pid q =
        some (db, .error .sinProductosActivos)) ∧
    ((activosJoin db).isEmpty = false → getById db.ventas vid = none →
      agregar_item_venta db vid pid q =
        some (db, .error .ventaNoEncontrada)) ∧
    ((activosJoin db).isEmpty = false →
      ∀ venta, getById db.ventas vid = some venta →
      (getById db.productos pid = none ∨
        ∃ p, getById db.productos pid = some p ∧ p.activo = false) →
      agregar_item_venta db vid pid q =
        some (db, .error .productoNoEncontrado)) := by
  refine ⟨fun h => by simp [agregar_item_venta, h],
          fun h hv => by simp [agregar_item_venta, h, hv],
          fun h venta hv hp => ?_⟩
  rcases hp with hnone | ⟨p, hp, hina⟩
  · simp [agregar_item_venta, h, hv, hnone]
  · simp [agregar_item_venta, h, hv, hp, hina]

/-- Witness for the amended C4: with a non-empty active catalog (`dbW`) and
a sale id (5) that does not resolve, AppendItem fails with the
sale-not-found error. -/
theorem agregar_item_resolution_order_witness :
    agregar_item_venta dbW 5 1 1 = some (dbW, .error .ventaNoEncontrada) :=
  (agregar_item_resolution_order dbW 5 1 1).2.1 (by decide) (by decide)

/-- C5: for every input, `crear_producto` fails with error `e` exactly when
`e` is the first failing check in the fixed order InvalidStock, NotFound,
CategoryInactive, DuplicateName — and it succeeds exactly when every check
passes. -/
theorem crear_producto_check_order (db : DB) (nombre : String)
    (descripcion : Option String) (activo : Bool) (precio : Option Int)
    (stock : Option Int) (categoria_id : Nat) (now : Nat) :
    (∀ e, crear_producto db nombre descripcion activo precio stock
        categoria_id now = .error e ↔
      crearProductoFirstFailure db nombre stock categoria_id = some e) ∧
    (crearProductoFirstFailure db nombre stock categoria_id = none ↔
      ∃ db' p, crear_producto db nombre descripcion activo precio stock
        categoria_id now = .ok (db', p)) := by
  unfold crear_producto crearProductoFirstFailure
  by_cases h1 : negativeStock stock
  · simp [h1]
  · simp only [h1, if_false, Bool.false_eq_true]
    cases hc : getById db.categorias categoria_id with
    | none => simp
    | some c =>
      by_cases h2 : c.activo = false
      · simp [h2]
      · by_cases h3 : (db.productos.filter
            (fun pr => pr.2.nombre == nombre)).isEmpty = false
        · simp [h2, h3]
        · simp [h2, h3]

/-- Witness for C5: on `dbW`, creating a product with negative stock fails
with the first check's error even though the category id (7) would also
fail to resolve. -/
theorem crear_producto_check_order_witness :
    crear_producto dbW "Jugo" none true none (some (-1)) 7 0 =
      .error .stockNegativo :=
  ((crear_producto_check_order dbW "Jugo" none true none (some (-1)) 7 0).1
    .stockNegativo).mpr (by decide)

/-- Inversion of a successful `agregar_item_venta`: the guards all passed and
the new state is exactly the committed three-way mutation. -/
theorem agregar_item_ok_inversion {db db' : DB} {vid pid : Nat} {q : Int}
    {it : VentaItem}
    (h : agregar_item_venta db vid pid q = some (db', .ok it)) :
    ∃ venta producto s pu,
      getById db.ventas vid = some venta ∧
      getById db.productos pid = some producto ∧
      producto.activo = true ∧ producto.stock = some s ∧ q ≤ s ∧
      producto.precio = some pu ∧
      it = { venta_id := some vid, producto_id := pid, cantidad := q,
             precio_unitario := pu } ∧
      db' = { db with
        productos := setById db.productos pid
          { producto with stock := some (s - q) },
        ventas := setById db.ventas vid
          { venta with total := venta.total + pu * q },
        items := db.items ++ [(db.nextItemId, it)],
        nextItemId := db.nextItemId + 1 } := by
  unfold agregar_item_venta at h
  split at h
  · exact absurd h (by simp)
  · split at h
    · exact absurd h (by simp)
    · rename_i venta hv
      split at h
      · exact absurd h (by simp)
      · rename_i producto hp
        split at h
        · exact absurd h (by simp)
        · rename_i hact
          split at h
          · exact absurd h (by simp)
          · rename_i s hs
            split at h
            · exact absurd h (by simp)
            · rename_i hlt
              split at h
              · exact absurd h (by simp)
              · rename_i pu hpu
                simp only [Option.some.injEq, Prod.mk.injEq,
                  Except.ok.injEq] at h
                obtain ⟨hdb, hit⟩ := h
                have hact' : producto.activo = true := by
                  revert hact; cases producto.activo <;> simp
                exact ⟨venta, producto, s, pu, hv, hp, hact', hs,
                  Int.not_lt.mp hlt, hpu, hit.symm, by
                    rw [← hdb, ← hit]⟩

theorem itemsTotal_append (vid : Nat) (l : List (Nat × VentaItem))
    (e : Nat × VentaItem) :
    itemsTotal vid (l ++ [e]) =
      itemsTotal vid l +
        (if e.2.venta_id = some vid then e.2.precio_unitario * e.2.cantidad
         else 0) := by
  simp [itemsTotal]

theorem itemsTotal_eq_zero {vid : Nat} :
    ∀ {items : List (Nat × VentaItem)},
      (∀ e ∈ items, e.2.venta_id ≠ some vid) → itemsTotal vid items = 0 := by
  intro items
  induction items with
  | nil => intro _; simp [itemsTotal]
  | cons e rest ih =>
    intro h
    have h1 : e.2.venta_id ≠ some vid := h e (List.mem_cons_self e rest)
    have h2 := ih (fun x hx => h x (List.mem_cons_of_mem e hx))
    simp only [itemsTotal, List.map_cons, List.sum_cons, if_neg h1] at h2 ⊢
    simpa using h2

/-- Every reachable state satisfies the sale-total invariant. -/
theorem reach_ventasInv {db : DB} (h : Reach db) : VentasInv db := by
  induction h with
  | init db hv hi =>
    constructor
    · intro k v hk
      rw [hv] at hk
      simp [getById] at hk
    · intro k _ e he
      rw [hi] at he
      simp at he
  | venta db now _ ih =>
    obtain ⟨ih1, ih2⟩ := ih
    constructor
    · intro k v hk
      simp only [crear_venta] at hk
      rw [getById_append] at hk
      cases hg : getById db.ventas k with
      | some w =>
        rw [hg] at hk
        obtain rfl : w = v := Option.some.inj hk
        obtain ⟨hlt, htot⟩ := ih1 k w hg
        exact ⟨Nat.lt_succ_of_lt hlt, htot⟩
      | none =>
        rw [hg] at hk
        simp only [getById] at hk
        by_cases hkn : db.nextVentaId = k
        · subst hkn
          rw [if_pos rfl] at hk
          obtain rfl : ({ fecha_venta := now, total := 0 } : Venta) = v :=
            Option.some.inj hk
          refine ⟨Nat.lt_succ_self _, ?_⟩
          show (0 : Int) = itemsTotal db.nextVentaId db.items
          exact (itemsTotal_eq_zero (ih2 db.nextVentaId hg)).symm
        · rw [if_neg hkn] at hk
          exact absurd hk (by simp)
    · intro k hk e he
      simp only [crear_venta] at hk he
      rw [getById_append] at hk
      cases hg : getById db.ventas k with
      | some w => rw [hg] at hk; exact absurd hk (by simp)
      | none => exact ih2 k hg e he
  | item db db' vid pid q it _ hstep ih =>
    obtain ⟨ih1, ih2⟩ := ih
    obtain ⟨venta, producto, s, pu, hv, hp, _, _, _, _, hit, hdb'⟩ :=
      agregar_item_ok_inversion hstep
    subst hdb'
    constructor
    · intro k v hk
      simp only at hk ⊢
      by_cases hkv : k = vid
      · subst hkv
        rw [getById_setById_self _ hv] at hk
        obtain rfl := Option.some.inj hk
        obtain ⟨hlt, htot⟩ := ih1 k venta hv
        refine ⟨hlt, ?_⟩
        rw [itemsTotal_append, if_pos (by rw [hit])]
        simp only [hit, htot]
      · rw [getById_setById_ne hkv] at hk
        obtain ⟨hlt, htot⟩ := ih1 k v hk
        refine ⟨hlt, ?_⟩
        rw [itemsTotal_append,
          if_neg (by rw [hit]; simpa using fun hc => hkv hc.symm)]
        simpa using htot
    · intro k hk e he
      simp only at hk he
      by_cases hkv : k = vid
      · subst hkv
        rw [getById_setById_self _ hv] at hk
        exact absurd hk (by simp)
      · rw [getById_setById_ne hkv] at hk
        rcases List.mem_append.mp he with hold | hnew
        · exact ih2 k hk e hold
        · have : e = (db.nextItemId, it) := by simpa using hnew
          rw [this, hit]
          simpa using fun hc => hkv hc.symm

/-- C2: in every state reachable by any sequence of CreateSale and
successful AppendItem operations, every stored sale's total equals the sum
of `unit_price * quantity` over that sale's items; and a sale freshly
created by `crear_venta` has total 0 and no items referencing it. -/
theorem venta_total_correct (db : DB) (h : Reach db) :
    (∀ k v, getById db.ventas k = some v → v.total = itemsTotal k db.items) ∧
    (∀ now, (crear_venta db now).2.total = 0 ∧
      ∀ e ∈ (crear_venta db now).1.items,
        e.2.venta_id ≠ some db.nextVentaId) := by
  have inv := reach_ventasInv h
  refine ⟨fun k v hk => (inv.1 k v hk).2, fun now => ⟨rfl, ?_⟩⟩
  have hnone : getById db.ventas db.nextVentaId = none := by
    cases hg : getById db.ventas db.nextVentaId with
    | none => rfl
    | some w => exact absurd (inv.1 _ _ hg).1 (lt_irrefl _)
  intro e he
  exact inv.2 _ hnone e (by simpa [crear_venta] using he)

/-- Witness for C2: the state reached from the catalog-only store `db0` by
one CreateSale satisfies the total invariant at the created sale's key. -/
theorem venta_total_correct_witness :
    venta1.total = itemsTotal 1 (crear_venta db0 0).1.items :=
  (venta_total_correct (crear_venta db0 0).1
      (Reach.venta db0 0 (Reach.init db0 rfl rfl))).1 1 venta1 (by decide)

/-- C3: for a product whose stock starts at `S ≥ 0`, after any prefix of a
sequence of successful AppendItem calls the product's stock equals `S` minus
the quantities appended against it so far, and is never negative; taking the
whole sequence as the prefix gives the final stock. -/
theorem agregar_stock_conservation (pid : Nat) :
    ∀ (pre suf : List (Nat × Nat × Int)) (db db' : DB) (p : Producto)
      (S : Int),
      runVentaCalls db (pre ++ suf) = some db' →
      getById db.productos pid = some p →
      p.stock = some S → 0 ≤ S →
      ∃ dbm pm, runVentaCalls db pre = some dbm ∧
        getById dbm.productos pid = some pm ∧
        pm.stock = some (S - cantidadTotal pid pre) ∧
        0 ≤ S - cantidadTotal pid pre := by
  intro pre
  induction pre with
  | nil =>
    intro suf db db' p S _ hp hS hpos
    exact ⟨db, p, rfl, hp, by simpa [cantidadTotal] using hS,
      by simpa [cantidadTotal] using hpos⟩
  | cons c rest ih =>
    intro suf db db' p S hrun hp hS hpos
    obtain ⟨vid, pid2, q⟩ := c
    simp only [List.cons_append, runVentaCalls] at hrun
    cases hag : agregar_item_venta db vid pid2 q with
    | none => rw [hag] at hrun; exact absurd hrun (by simp)
    | some pr =>
      obtain ⟨db1, res⟩ := pr
      cases res with
      | error e => rw [hag] at hrun; exact absurd hrun (by simp)
      | ok it =>
        rw [hag] at hrun
        simp only at hrun
        obtain ⟨venta, producto, s, pu, hv, hpp, hact, hst, hqs, hpu, hit,
          hdb1⟩ := agregar_item_ok_inversion hag
        subst hdb1
        by_cases hpid : pid2 = pid
        · subst hpid
          have hep : producto = p := by
            rw [hpp] at hp
            exact Option.some.inj hp
          subst hep
          have hsS : s = S := by
            rw [hst] at hS
            exact Option.some.inj hS
          subst hsS
          have hp1 : getById
              (setById db.productos pid2 { producto with stock := some (s - q) })
              pid2 = some { producto with stock := some (s - q) } :=
            getById_setById_self _ hpp
          have h0 : (0 : Int) ≤ s - q := by omega
          obtain ⟨dbm, pm, hm1, hm2, hm3, hm4⟩ :=
            ih suf _ db' _ (s - q) hrun hp1 rfl h0
          refine ⟨dbm, pm, ?_, hm2, ?_, ?_⟩
          · show runVentaCalls db ((vid, pid2, q) :: rest) = some dbm
            simp only [runVentaCalls, hag]
            exact hm1
          · have hq : cantidadTotal pid2 ((vid, pid2, q) :: rest) =
                q + cantidadTotal pid2 rest := by
              simp [cantidadTotal]
            rw [hq, show s - (q + cantidadTotal pid2 rest) =
              s - q - cantidadTotal pid2 rest by ring]
            exact hm3
          · have hq : cantidadTotal pid2 ((vid, pid2, q) :: rest) =
                q + cantidadTotal pid2 rest := by
              simp [cantidadTotal]
            rw [hq]
            omega
        · have hp1 : getById
              (setById db.productos pid2 { producto with stock := some (s - q) })
              pid = some p := by
            rw [getById_setById_ne (fun hc => hpid hc.symm)]
            exact hp
          obtain ⟨dbm, pm, hm1, hm2, hm3, hm4⟩ :=
            ih suf _ db' p S hrun hp1 hS hpos
          refine ⟨dbm, pm, ?_, hm2, ?_, ?_⟩
          · show runVentaCalls db ((vid, pid2, q) :: rest) = some dbm
            simp only [runVentaCalls, hag]
            exact hm1
          · have hq : cantidadTotal pid ((vid, pid2, q) :: rest) =
                cantidadTotal pid rest := by
              simp [cantidadTotal, hpid]
            rw [hq]
            exact hm3
          · have hq : cantidadTotal pid ((vid, pid2, q) :: rest) =
                cantidadTotal pid rest := by
              simp [cantidadTotal, hpid]
            rw [hq]
            exact hm4

/-- Witness for C3: running the single successful call (sale 1, product 1,
quantity 3) on `dbW` leaves product 1 with stock 10 − 3 = 7 ≥ 0. -/
theorem agregar_stock_conservation_witness :
    ∃ dbm pm, runVentaCalls dbW [(1, 1, 3)] = some dbm ∧
      getById dbm.productos 1 = some pm ∧
      pm.stock = some (10 - cantidadTotal 1 [(1, 1, 3)]) ∧
      0 ≤ 10 - cantidadTotal 1 [(1, 1, 3)] :=
  agregar_stock_conservation 1 [(1, 1, 3)] [] dbW dbW1 prod1 10 (by decide)
    (by decide) (by decide) (by decide)

/-- C6: the SaleItem created by a successful AppendItem snapshots the
product's price at insertion time as its `precio_unitario`; the item is
stored; and no later `actualizar_producto` call (in particular one changing
the price) touches the items table, so the stored item's `precio_unitario`
is unchanged by it. -/
theorem item_precio_snapshot (db : DB) (vid pid : Nat) (q : Int) (db' : DB)
    (it : VentaItem)
    (h : agregar_item_venta db vid pid q = some (db', .ok it)) :
    (∀ p pu, getById db.productos pid = some p → p.precio = some pu →
      it.precio_unitario = pu) ∧
    (db.nextItemId, it) ∈ db'.items ∧
    (∀ pid2 nombre descripcion activo precio stock now db2 p2,
      actualizar_producto db' pid2 nombre descripcion activo precio stock
        now = .ok (db2, p2) → db2.items = db'.items) := by
  obtain ⟨venta, producto, s, pu0, hv, hp, hact, hst, hqs, hpu, hit, hdb'⟩ :=
    agregar_item_ok_inversion h
  refine ⟨?_, ?_, ?_⟩
  · intro p pu hp2 hpu2
    rw [hp] at hp2
    obtain rfl := Option.some.inj hp2
    rw [hpu] at hpu2
    obtain rfl := Option.some.inj hpu2
    rw [hit]
  · rw [hdb']
    simp
  · intro pid2 nombre descripcion activo precio stock now db2 p2 hupd
    unfold actualizar_producto at hupd
    split at hupd
    · exact absurd hupd (by simp)
    · split at hupd
      · exact absurd hupd (by simp)
      · simp only [Except.ok.injEq, Prod.mk.injEq] at hupd
        rw [← hupd.1]

/-- Witness for C6: on `dbW` the created item snapshots price 5, is stored
in `dbW1`, and a later price update to 99 leaves the items table of `dbW1`
intact. -/
theorem item_precio_snapshot_witness :
    (dbW.nextItemId, itemW) ∈ dbW1.items ∧ dbUpd.items = dbW1.items :=
  ⟨(item_precio_snapshot dbW 1 1 3 dbW1 itemW (by decide)).2.1,
   (item_precio_snapshot dbW 1 1 3 dbW1 itemW (by decide)).2.2 1 none none
     none (some 99) none 7 dbUpd prodUpd (by decide)⟩

/-- C7: on an existing product id, `eliminar_producto` soft-deletes — it
sets `activo := false`, `precio := 0`, `stock := 0`, marks the product
retired by assigning the internal `eliminacion` attribute (so `retirado`
holds), leaves `fecha_actualizacion` untouched, keeps the row in the table
and touches nothing else; on a missing id it fails with the 404 error. -/
theorem eliminar_producto_soft_delete (db : DB) (pid : Nat) :
    (getById db.productos pid = none →
      eliminar_producto db pid = .error .productoNoEncontrado) ∧
    (∀ p, getById db.productos pid = some p →
      ∃ db' p', eliminar_producto db pid = .ok (db', p') ∧
        p'.activo = false ∧ p'.precio = some 0 ∧ p'.stock = some 0 ∧
        p'.eliminacion = some false ∧ retirado p' = true ∧
        p'.fecha_actualizacion = p.fecha_actualizacion ∧
        getById db'.productos pid = some p' ∧
        (∀ k, k ≠ pid → getById db'.productos k = getById db.productos k) ∧
        db'.ventas = db.ventas ∧ db'.items = db.items ∧
        db'.categorias = db.categorias) := by
  constructor
  · intro h
    unfold eliminar_producto
    rw [h]
  · intro p hp
    unfold eliminar_producto
    rw [hp]
    exact ⟨_, _, rfl, rfl, rfl, rfl, rfl, rfl, rfl,
      getById_setById_self _ hp, fun k hk => getById_setById_ne hk,
      rfl, rfl, rfl⟩

/-- Witness for C7: soft-deleting product 1 of `dbW`. -/
theorem eliminar_producto_soft_delete_witness :
    ∃ db' p', eliminar_producto dbW 1 = .ok (db', p') ∧
      p'.activo = false ∧ p'.precio = some 0 ∧ p'.stock = some 0 ∧
      p'.eliminacion = some false ∧ retirado p' = true ∧
      p'.fecha_actualizacion = prod1.fecha_actualizacion ∧
      getById db'.productos 1 = some p' ∧
      (∀ k, k ≠ 1 → getById db'.productos k = getById dbW.productos k) ∧
      db'.ventas = dbW.ventas ∧ db'.items = dbW.items ∧
      db'.categorias = dbW.categorias :=
  (eliminar_producto_soft_delete dbW 1).2 prod1 (by decide)

/-- Counterexample to C8: a successful `actualizar_categoria` that does
apply a field (the name becomes "Nuevo") leaves `fecha_actualizacion`
exactly at its pre-call value 0 — the source never refreshes the timestamp
(it reads no clock at all), contradicting "always refreshes updated_at". -/
theorem actualizar_categoria_timestamp_cex :
    actualizar_categoria dbW 1 (some "Nuevo") none none =
      .ok ({ dbW with categorias := [(1, { cat1 with nombre := "Nuevo" })] },
           { cat1 with nombre := "Nuevo" }) ∧
    ({ cat1 with nombre := "Nuevo" } : Categoria).fecha_actualizacion = 0 ∧
    cat1.fecha_actualizacion = 0 := by
  refine ⟨by decide, rfl, rfl⟩

/-- C8 as amended: on an existing category id, `actualizar_categoria`
overwrites exactly the provided (non-null) fields of name/description/active
and leaves every other field — including `fecha_actualizacion`, which is
never refreshed — unchanged; on a missing id it fails with the 404 error. -/
theorem actualizar_categoria_partial_update (db : DB) (cid : Nat)
    (nombre descripcion : Option String) (activo : Option Bool) :
    (getById db.categorias cid = none →
      actualizar_categoria db cid nombre descripcion activo =
        .error .categoriaNoEncontrada) ∧
    (∀ c, getById db.categorias cid = some c →
      ∃ db' c', actualizar_categoria db cid nombre descripcion activo =
          .ok (db', c') ∧
        c'.nombre = nombre.getD c.nombre ∧
        c'.descripcion = (match descripcion with
          | some d => some d
          | none => c.descripcion) ∧
        c'.activo = activo.getD c.activo ∧
        c'.fecha_creacion = c.fecha_creacion ∧
        c'.fecha_actualizacion = c.fecha_actualizacion ∧
        c'.eliminacion = c.eliminacion ∧
        getById db'.categorias cid = some c' ∧
        (∀ k, k ≠ cid → getById db'.categorias k = getById db.categorias k) ∧
        db'.productos = db.productos ∧ db'.ventas = db.ventas ∧
        db'.items = db.items) := by
  constructor
  · intro h
    unfold actualizar_categoria
    rw [h]
  · intro c hc
    unfold actualizar_categoria
    rw [hc]
    exact ⟨_, _, rfl, rfl, rfl, rfl, rfl, rfl, rfl,
      getById_setById_self _ hc, fun k hk => getById_setById_ne hk,
      rfl, rfl, rfl⟩

/-- Witness for the amended C8: updating only the name of category 1 of
`dbW`. -/
theorem actualizar_categoria_partial_update_witness :
    ∃ db' c', actualizar_categoria dbW 1 (some "Nuevo") none none =
        .ok (db', c') ∧
      c'.nombre = (some "Nuevo").getD cat1.nombre ∧
      c'.descripcion = (match (none : Option String) with
        | some d => some d
        | none => cat1.descripcion) ∧
      c'.activo = (none : Option Bool).getD cat1.activo ∧
      c'.fecha_creacion = cat1.fecha_creacion ∧
      c'.fecha_actualizacion = cat1.fecha_actualizacion ∧
      c'.eliminacion = cat1.eliminacion ∧
      getById db'.categorias 1 = some c' ∧
      (∀ k, k ≠ 1 → getById db'.categorias k = getById dbW.categorias k) ∧
      db'.productos = dbW.productos ∧ db'.ventas = dbW.ventas ∧
      db'.items = dbW.items :=
  (actualizar_categoria_partial_update dbW 1 (some "Nuevo") none none).2
    cat1 (by decide)

theorem listOr404_ok_ne_nil {l l' : List α} (h : listOr404 l = .ok l') :
    l' ≠ [] := by
  unfold listOr404 at h
  split at h
  · exact absurd h (by simp)
  · rename_i hne
    obtain rfl : l = l' := Except.ok.inj h
    simpa using hne

/-- C9: every list read of the Catalog and the Sale Aggregate — active
products, active categories, categories by flag, products by category, by
flag, by category+flag, by price range, by stock range, all sales, sale by
id — never returns an empty list as a successful answer, and fails with the
404 `noEncontrado` error whenever its result set is empty (for the two
range reads, once the range itself is well-formed). -/
theorem lecturas_vacias_404 (db : DB) (cid : Nat) (act : Bool)
    (pmin pmax smin smax : Int) (vid : Nat) :
    (∀ l, leer_productos db = .ok l → l ≠ []) ∧
    (activosJoin db = [] → leer_productos db = .error .noEncontrado) ∧
    (∀ l, leer_categorias db = .ok l → l ≠ []) ∧
    (db.categorias.filter (fun c => c.2.activo) = [] →
      leer_categorias db = .error .noEncontrado) ∧
    (∀ l, leer_categorias_activo db act = .ok l → l ≠ []) ∧
    (db.categorias.filter (fun c => c.2.activo == act) = [] →
      leer_categorias_activo db act = .error .noEncontrado) ∧
    (∀ l, leer_productos_por_categoria db cid = .ok l → l ≠ []) ∧
    (db.productos.filter (fun p => p.2.categoria_id == some cid) = [] →
      leer_productos_por_categoria db cid = .error .noEncontrado) ∧
    (∀ l, leer_productos_por_estado db act = .ok l → l ≠ []) ∧
    (db.productos.filter (fun p => p.2.activo == act) = [] →
      leer_productos_por_estado db act = .error .noEncontrado) ∧
    (∀ l, leer_productos_por_categoria_y_estado db cid act = .ok l →
      l ≠ []) ∧
    (db.productos.filter
        (fun p => p.2.categoria_id == some cid && p.2.activo == act) = [] →
      leer_productos_por_categoria_y_estado db cid act =
        .error .noEncontrado) ∧
    (∀ l, leer_productos_por_precio db pmin pmax = .ok l → l ≠ []) ∧
    (pmin ≤ pmax →
      db.productos.filter (fun p =>
        match p.2.precio with
        | some v => decide (pmin ≤ v) && decide (v ≤ pmax)
        | none => false) = [] →
      leer_productos_por_precio db pmin pmax = .error .noEncontrado) ∧
    (∀ l, leer_productos_por_stock db smin smax = .ok l → l ≠ []) ∧
    (smin ≤ smax →
      db.productos.filter (fun p =>
        match p.2.stock with
        | some v => decide (smin ≤ v) && decide (v ≤ smax)
        | none => false) = [] →
      leer_productos_por_stock db smin smax = .error .noEncontrado) ∧
    (∀ l, leer_ventas db = .ok l → l ≠ []) ∧
    (db.ventas = [] → leer_ventas db = .error .noEncontrado) ∧
    (∀ l, leer_ventas_por_id db vid = .ok l → l ≠ []) ∧
    (db.ventas.filter (fun v => v.1 == vid) = [] →
      leer_ventas_por_id db vid = .error .noEncontrado) := by
  refine ⟨?_, ?_, ?_, ?_, ?_, ?_, ?_, ?_, ?_, ?_, ?_, ?_, ?_, ?_, ?_, ?_,
    ?_, ?_, ?_, ?_⟩
  · intro l h
    exact listOr404_ok_ne_nil h
  · intro he
    unfold leer_productos
    rw [he]
    rfl
  · intro l h
    exact listOr404_ok_ne_nil h
  · intro he
    unfold leer_categorias
    rw [he]
    rfl
  · intro l h
    exact listOr404_ok_ne_nil h
  · intro he
    unfold leer_categorias_activo
    rw [he]
    rfl
  · intro l h
    exact listOr404_ok_ne_nil h
  · intro he
    unfold leer_productos_por_categoria
    rw [he]
    rfl
  · intro l h
    exact listOr404_ok_ne_nil h
  · intro he
    unfold leer_productos_por_estado
    rw [he]
    rfl
  · intro l h
    exact listOr404_ok_ne_nil h
  · intro he
    unfold leer_productos_por_categoria_y_estado
    rw [he]
    rfl
  · intro l h
    unfold leer_productos_por_precio at h
    split at h
    · exact absurd h (by simp)
    · exact listOr404_ok_ne_nil h
  · intro hle he
    unfold leer_productos_por_precio
    rw [if_neg (by omega : ¬pmax < pmin), he]
    rfl
  · intro l h
    unfold leer_productos_por_stock at h
    split at h
    · exact absurd h (by simp)
    · exact listOr404_ok_ne_nil h
  · intro hle he
    unfold leer_productos_por_stock
    rw [if_neg (by omega : ¬smax < smin), he]
    rfl
  · intro l h
    exact listOr404_ok_ne_nil h
  · intro he
    unfold leer_ventas
    rw [he]
    rfl
  · intro l h
    exact listOr404_ok_ne_nil h
  · intro he
    unfold leer_ventas_por_id
    rw [he]
    rfl

/-- Witness for C9: on the empty store, listing all sales fails with the
404 error. -/
theorem lecturas_vacias_404_witness :
    leer_ventas dbEmpty = .error .noEncontrado := by
  obtain ⟨-, -, -, -, -, -, -, -, -, -, -, -, -, -, -, -, -, h18, -, -⟩ :=
    lecturas_vacias_404 dbEmpty 1 true 0 0 0 0 1
  exact h18 rfl

/-- C10: when the stock column of the (resolved, active) product was never
set, the stock guard `producto.stock < cantidad` is not defined — the
embedding yields `none`, which is neither a success nor any error of the
taxonomy; the same holds for the price snapshot when the price column is
unset and the stock guard passes. -/
theorem agregar_item_indefinido_sin_stock (db : DB) (vid pid : Nat)
    (q : Int) (venta : Venta) (p : Producto)
    (hjoin : (activosJoin db).isEmpty = false)
    (hv : getById db.ventas vid = some venta)
    (hp : getById db.productos pid = some p)
    (hact : p.activo = true) :
    (p.stock = none → agregar_item_venta db vid pid q = none) ∧
    (∀ s, p.stock = some s → ¬s < q → p.precio = none →
      agregar_item_venta db vid pid q = none) := by
  constructor
  · intro hs
    simp [agregar_item_venta, hjoin, hv, hp, hact, hs]
  · intro s hs hlt hpu
    simp [agregar_item_venta, hjoin, hv, hp, hact, hs, hlt, hpu]

/-- Witness for C10: with stock unset the call is undefined, and with
stock 10 but price unset it is likewise undefined. -/
theorem agregar_item_indefinido_sin_stock_witness :
    agregar_item_venta dbSinStock 1 1 5 = none ∧
    agregar_item_venta dbSinPrecio 1 1 3 = none :=
  ⟨(agregar_item_indefinido_sin_stock dbSinStock 1 1 5 venta1
      { prod1 with stock := none } (by decide) (by decide) (by decide)
      (by decide)).1 (by decide),
   (agregar_item_indefinido_sin_stock dbSinPrecio 1 1 3 venta1
      { prod1 with precio := none } (by decide) (by decide) (by decide)
      (by decide)).2 10 (by decide) (by decide) (by decide)⟩
